import Mathlib

/-!
# Verification of the kegelpy core against its specification

Shallow embedding of the kegelpy repository (src/kegelpy/core.py,
kegel.py, kegel_tui.py).  Python machine integers are modelled as `ℕ`
(all quantities in the program are non-negative and stay far from any
word size), Python floats carrying durations are modelled as `ℚ`, and
ISO timestamps are carried as opaque `String`s.  Python floor division
`//` on the non-negative operands that occur in the program coincides
with `ℕ` division `/`, and `max 0 (a - b)` patterns coincide with `ℕ`
truncated subtraction; the generator functions are only ever called
with `level ≥ 1` and `day ≥ 1`.
-/

namespace Kegelpy

/-- `ExerciseRecord` dataclass (core.py lines 36-43). -/
structure ExerciseRecord where
  date : String
  level : ℕ
  day : ℕ
  duration_seconds : ℚ
  classic_reps : ℕ
  pulse_reps : List ℕ
deriving DecidableEq

/-- `Routine` dataclass (core.py lines 46-54). -/
structure Routine where
  level : ℕ
  day : ℕ
  classic_hold_sec : ℕ
  classic_rest_sec : ℕ
  classic_reps : ℕ
  pulse_reps : List ℕ
  total_days_in_level : ℕ
deriving DecidableEq

/-- `UserState` dataclass with its defaults (core.py lines 57-62). -/
structure UserState where
  current_level : ℕ := 1
  current_day : ℕ := 1
  last_performed : String := ""
  exercise_history : List ExerciseRecord := []
deriving DecidableEq

/-- `LevelGenerator.get_days_for_level` (core.py lines 69-84). -/
def get_days_for_level (level : ℕ) : ℕ :=
  if level ≤ 3 then 5
  else if level ≤ 6 then 6
  else if level ≤ 10 then 6 + min 2 ((level - 6) / 2)
  else if level ≤ 15 then 7 + min 1 ((level - 11) / 4)
  else min 12 (8 + (level - 15) / 3)

/-- `LevelGenerator.classic_hold` (core.py lines 86-112). -/
def classic_hold (level day : ℕ) : ℕ :=
  let base :=
    if level ≤ 10 then
      let base := 3 + level
      if 7 ≤ level ∧ 4 ≤ day then base + 1 else base
    else if level ≤ 14 then
      let base := 11 + (level - 10)
      if level = 12 ∧ 4 ≤ day then base + 2 else base
    else
      let base := 14 + (level - 14) / 2
      if get_days_for_level level / 2 ≤ day then base + 1 else base
  min 30 (max 4 base)

/-- `LevelGenerator.classic_rest` (core.py lines 114-120). -/
def classic_rest (level : ℕ) : ℕ :=
  if level < 11 then 4 else 5

/-- `LevelGenerator.classic_reps` (core.py lines 122-151). -/
def classic_reps (level day : ℕ) : ℕ :=
  if level ≤ 10 then
    10 + level + (day - 1) / 3
  else if level = 11 then
    if 6 ≤ day then 16 else 15
  else if level = 12 then
    if day ≤ 3 then 16 else 15
  else if level = 13 then
    if day = 1 then 15 else 16
  else
    16

/-- `LevelGenerator.pulse_reps` (core.py lines 153-190): three sets whose
day adjustment is staggered (set 1 lags one step, set 2 lags two). -/
def pulse_reps (level day : ℕ) : List ℕ :=
  let base_reps := if level ≤ 10 then 10 + level * 2 else 25 + (level - 10) * 2
  let day_adjustment := (day - 1) / 2
  [ max 5 (base_reps + day_adjustment),
    max 5 (base_reps + max 0 (day_adjustment - 1)),
    max 5 (base_reps + max 0 (day_adjustment - 2)) ]

/-- `LevelGenerator.generate_routine` (core.py lines 192-205). -/
def generate_routine (level day : ℕ) : Routine :=
  { level := level
    day := day
    classic_hold_sec := classic_hold level day
    classic_rest_sec := classic_rest level
    classic_reps := classic_reps level day
    pulse_reps := pulse_reps level day
    total_days_in_level := get_days_for_level level }

/-- `StateManager.add_exercise_record` (core.py lines 242-257), in-memory
effect.  `datetime.now().isoformat()` is an environment input, passed as
`now_iso`; the durable write performed by `self.save` is the
serialization of the returned state (modelled separately). -/
def add_exercise_record (state : UserState) (routine : Routine)
    (duration_seconds : ℚ) (now_iso : String) : UserState :=
  let record : ExerciseRecord :=
    { date := now_iso
      level := routine.level
      day := routine.day
      duration_seconds := duration_seconds
      classic_reps := routine.classic_reps
      pulse_reps := routine.pulse_reps }
  { state with
      exercise_history := state.exercise_history ++ [record]
      last_performed := record.date }

/-- `StateManager.advance_progress` (core.py lines 259-268), in-memory
effect (the durable write is the serialization of the returned state). -/
def advance_progress (state : UserState) (days_in_current_level : ℕ) : UserState :=
  if state.current_day ≥ days_in_current_level then
    { state with
        current_level := state.current_level + 1
        current_day := 1 }
  else
    { state with current_day := state.current_day + 1 }

/-- `KegelApp.save_workout` (kegel_tui.py lines 403-421), in-memory
effect: appends the record, stamps `last_performed`, and advances
level/day inline using `routine.total_days_in_level`. -/
def save_workout (state : UserState) (routine : Routine) (duration : ℚ)
    (now_iso : String) : UserState :=
  let record : ExerciseRecord :=
    { date := now_iso
      level := routine.level
      day := routine.day
      duration_seconds := duration
      classic_reps := routine.classic_reps
      pulse_reps := routine.pulse_reps }
  let state :=
    { state with
        exercise_history := state.exercise_history ++ [record]
        last_performed := record.date }
  if state.current_day ≥ routine.total_days_in_level then
    { state with
        current_level := state.current_level + 1
        current_day := 1 }
  else
    { state with current_day := state.current_day + 1 }

/-- `get_days_for_level` never exceeds 12 (helper shared by several
claims): every branch is bounded by 8 except the last, which is
explicitly capped by `min 12`. -/
theorem get_days_for_level_le_twelve (level : ℕ) : get_days_for_level level ≤ 12 := by
  unfold get_days_for_level
  split_ifs <;> simp [Nat.min_def] <;> split_ifs <;> omega

end Kegelpy

namespace Kegelpy

/-- C1: `advance_progress` on a state with `currentDay ≥ 1` and a level
length `N ≥ 1` increments the level and resets the day to 1 when
`currentDay ≥ N`, and otherwise just increments the day; the remaining
fields (`last_performed`, `exercise_history`) are untouched in both
cases. -/
theorem advance_progress_spec (state : UserState) (N : ℕ)
    (hday : 1 ≤ state.current_day) (hN : 1 ≤ N) :
    (state.current_day ≥ N →
      advance_progress state N =
        { state with current_level := state.current_level + 1, current_day := 1 }) ∧
    (state.current_day < N →
      advance_progress state N =
        { state with current_day := state.current_day + 1 }) := by
  constructor
  · intro h
    unfold advance_progress
    rw [if_pos h]
  · intro h
    unfold advance_progress
    rw [if_neg (by omega)]

/-- Witness for C1 at the concrete state `{level 1, day 1}` with `N = 1`. -/
theorem advance_progress_spec_witness :
    advance_progress {} 1 =
      { current_level := 2, current_day := 1, last_performed := "",
        exercise_history := [] } :=
  (advance_progress_spec {} 1 (by decide) (by decide)).1 (by decide)

/-- C9: the concrete routines of the specification scenario:
`generate_routine 1 1` yields hold 4s, rest 4s, 11 classic reps, pulse
sets `[12, 12, 12]` and a 5-day level; `generate_routine 11 6` yields 16
classic reps (the level-11 day-6 override) and 5s rest. -/
theorem generate_routine_scenario :
    generate_routine 1 1 =
      { level := 1, day := 1, classic_hold_sec := 4, classic_rest_sec := 4,
        classic_reps := 11, pulse_reps := [12, 12, 12],
        total_days_in_level := 5 } ∧
    (generate_routine 11 6).classic_reps = 16 ∧
    (generate_routine 11 6).classic_rest_sec = 5 := by
  refine ⟨?_, ?_, ?_⟩ <;> decide

end Kegelpy

namespace Kegelpy

/-- C3 counterexample: `get_days_for_level` is not monotone — level 10
has 8 days but level 11 has only 7. -/
theorem get_days_for_level_not_monotone :
    get_days_for_level 10 = 8 ∧ get_days_for_level 11 = 7 ∧
    ¬(get_days_for_level 10 ≤ get_days_for_level 11) := by
  refine ⟨?_, ?_, ?_⟩ <;> decide

/-- C3 (amended): `get_days_for_level` never exceeds 12 and is
monotonically non-decreasing in the level, except for the single
decrease (8 to 7) between levels 10 and 11. -/
theorem get_days_for_level_bounds (level : ℕ) (h : 1 ≤ level) :
    get_days_for_level level ≤ 12 ∧
    (level ≠ 10 → get_days_for_level level ≤ get_days_for_level (level + 1)) := by
  refine ⟨get_days_for_level_le_twelve level, fun hne => ?_⟩
  rcases lt_or_le level 31 with hlt | hge
  · have key : ∀ l < 31, 1 ≤ l → l ≠ 10 →
        get_days_for_level l ≤ get_days_for_level (l + 1) := by decide
    exact key level hlt h hne
  · have h1 : get_days_for_level level = 12 := by
      unfold get_days_for_level
      have c1 : ¬(level ≤ 3) := by omega
      have c2 : ¬(level ≤ 6) := by omega
      have c3 : ¬(level ≤ 10) := by omega
      have c4 : ¬(level ≤ 15) := by omega
      rw [if_neg c1, if_neg c2, if_neg c3, if_neg c4]
      have h12 : 12 ≤ 8 + (level - 15) / 3 := by omega
      omega
    have h2 : get_days_for_level (level + 1) = 12 := by
      unfold get_days_for_level
      have c1 : ¬(level + 1 ≤ 3) := by omega
      have c2 : ¬(level + 1 ≤ 6) := by omega
      have c3 : ¬(level + 1 ≤ 10) := by omega
      have c4 : ¬(level + 1 ≤ 15) := by omega
      rw [if_neg c1, if_neg c2, if_neg c3, if_neg c4]
      have h12 : 12 ≤ 8 + (level + 1 - 15) / 3 := by omega
      omega
    omega

/-- Witness for C3's amended theorem at level 3 (days 5 ≤ 12, and
days 3 ≤ days 4). -/
theorem get_days_for_level_bounds_witness :
    get_days_for_level 3 ≤ 12 ∧
    (3 ≠ 10 → get_days_for_level 3 ≤ get_days_for_level 4) :=
  get_days_for_level_bounds 3 (by decide)

/-- C4: for every level in `[1, 30]` and every day in
`[1, daysInLevel level]`, the generated routine keeps its documented
bounds: the classic hold is within `[4, 30]`, every pulse set has at
least 5 reps, and `total_days_in_level` equals `get_days_for_level`. -/
theorem generate_routine_bounds (level day : ℕ)
    (h1 : 1 ≤ level) (h2 : level ≤ 30)
    (h3 : 1 ≤ day) (h4 : day ≤ get_days_for_level level) :
    4 ≤ (generate_routine level day).classic_hold_sec ∧
    (generate_routine level day).classic_hold_sec ≤ 30 ∧
    (∀ r ∈ (generate_routine level day).pulse_reps, 5 ≤ r) ∧
    (generate_routine level day).total_days_in_level = get_days_for_level level := by
  have hcap : get_days_for_level level ≤ 12 := get_days_for_level_le_twelve level
  have key : ∀ l < 31, ∀ d < 13, (1 ≤ l ∧ 1 ≤ d ∧ d ≤ get_days_for_level l) →
      4 ≤ (generate_routine l d).classic_hold_sec ∧
      (generate_routine l d).classic_hold_sec ≤ 30 ∧
      (∀ r ∈ (generate_routine l d).pulse_reps, 5 ≤ r) ∧
      (generate_routine l d).total_days_in_level = get_days_for_level l := by
    decide
  exact key level (by omega) day (by omega) ⟨h1, h3, h4⟩

/-- Witness for C4 at level 1, day 1. -/
theorem generate_routine_bounds_witness :
    4 ≤ (generate_routine 1 1).classic_hold_sec ∧
    (generate_routine 1 1).classic_hold_sec ≤ 30 ∧
    (∀ r ∈ (generate_routine 1 1).pulse_reps, 5 ≤ r) ∧
    (generate_routine 1 1).total_days_in_level = get_days_for_level 1 :=
  generate_routine_bounds 1 1 (by decide) (by decide) (by decide) (by decide)

/-- C10: the two front-ends apply the same completion update: the TUI's
`KegelApp.save_workout` equals the curses path
`StateManager.add_exercise_record` followed by
`StateManager.advance_progress` with `routine.total_days_in_level`, for
every initial state, routine, duration and timestamp. -/
theorem save_workout_eq_curses_path (state : UserState) (routine : Routine)
    (duration : ℚ) (now_iso : String) :
    save_workout state routine duration now_iso =
      advance_progress (add_exercise_record state routine duration now_iso)
        routine.total_days_in_level := by
  unfold save_workout add_exercise_record advance_progress
  rfl

end Kegelpy

namespace Kegelpy

/-- Terminal outcome of one exercise session (spec §4.2): every phase
ran to exhaustion (`Completed`) or a stop request ended it (`Stopped`). -/
inductive Outcome where
  | Completed
  | Stopped
deriving DecidableEq

/-- The classic loop of `App.exercise_session` (kegel.py lines 715-727):
each rep runs a hold timer then a rest timer via `App.run_timer`, which
returns false as soon as a stop is requested during it.  Stop requests
are an environment input, modelled as the oracle `stop : ℕ → Bool` over
consecutive timed-phase indices (`stop k = true` means a stop key
arrives during phase `k`).  Returns whether the loop completed and the
next phase index. -/
def run_classic (stop : ℕ → Bool) : ℕ → ℕ → Bool × ℕ
  | 0, k => (true, k)
  | n + 1, k =>
    if stop k then (false, k)
    else if stop (k + 1) then (false, k + 1)
    else run_classic stop n (k + 2)

/-- The inner rep loop of `App.run_pulse` (kegel.py lines 554-601): each
rep is a squeeze phase then a release phase, both polling for stop. -/
def run_pulse_reps (stop : ℕ → Bool) : ℕ → ℕ → Bool × ℕ
  | 0, k => (true, k)
  | n + 1, k =>
    if stop k then (false, k)
    else if stop (k + 1) then (false, k + 1)
    else run_pulse_reps stop n (k + 2)

/-- The set loop of `App.run_pulse` (kegel.py lines 532-653): runs each
set's reps, with a 10-second rest phase between consecutive sets (none
after the last); a stop during the rest makes `run_pulse` return false
at the next `stop_signal` check. -/
def run_pulse (stop : ℕ → Bool) : List ℕ → ℕ → Bool × ℕ
  | [], k => (true, k)
  | reps :: rest, k =>
    match run_pulse_reps stop reps k with
    | (false, k1) => (false, k1)
    | (true, k1) =>
      if rest.isEmpty then run_pulse stop rest k1
      else if stop k1 then (false, k1)
      else run_pulse stop rest (k1 + 1)

/-- `App.exercise_session` (kegel.py lines 704-772): generates the
routine for the current level/day, runs the classic loop then the pulse
loop, and only when both completed appends the record
(`add_exercise_record`) and advances progress (`advance_progress` with
`routine.total_days_in_level`).  Wall-clock inputs
(`datetime.now().isoformat()`, the measured session duration) are passed
in as `now_iso` and `session_duration`.  In the TUI front-end the same
outcome dichotomy holds: `WorkoutScreen.action_stop` cancels the
`run_workout` worker at an await point, all of which precede the single
`save_workout` call (kegel_tui.py lines 155-158, 207-209). -/
def exercise_session (state : UserState) (stop : ℕ → Bool)
    (now_iso : String) (session_duration : ℚ) : UserState × Outcome :=
  let routine := generate_routine state.current_level state.current_day
  let classic := run_classic stop routine.classic_reps 0
  let completed :=
    if classic.1 then (run_pulse stop routine.pulse_reps classic.2).1 else false
  if completed then
    (advance_progress (add_exercise_record state routine session_duration now_iso)
        routine.total_days_in_level,
      Outcome.Completed)
  else
    (state, Outcome.Stopped)

/-- C2: a session that ends in the `Stopped` outcome leaves the user
state exactly as it was — the history does not grow and level/day are
unchanged; the record append and the progress advancement happen only on
the `Completed` outcome. -/
theorem exercise_session_stopped_frame (state : UserState) (stop : ℕ → Bool)
    (now_iso : String) (session_duration : ℚ)
    (h : (exercise_session state stop now_iso session_duration).2 = Outcome.Stopped) :
    (exercise_session state stop now_iso session_duration).1 = state ∧
    (exercise_session state stop now_iso session_duration).1.exercise_history.length
      = state.exercise_history.length ∧
    (exercise_session state stop now_iso session_duration).1.current_level
      = state.current_level ∧
    (exercise_session state stop now_iso session_duration).1.current_day
      = state.current_day := by
  unfold exercise_session at h ⊢
  set routine := generate_routine state.current_level state.current_day
  by_cases hc :
      (if (run_classic stop routine.classic_reps 0).1 then
        (run_pulse stop routine.pulse_reps (run_classic stop routine.classic_reps 0).2).1
      else false) = true
  · simp only [hc, if_pos] at h
    simp at h
  · simp only [Bool.not_eq_true] at hc
    simp only [hc, Bool.false_eq_true, if_neg, ite_false]
    exact ⟨trivial, trivial, trivial, trivial⟩

/-- Witness for C2: stopping during the very first hold phase of a fresh
state leaves that state untouched. -/
theorem exercise_session_stopped_frame_witness :
    (exercise_session {} (fun _ => true) "" 0).2 = Outcome.Stopped ∧
    (exercise_session {} (fun _ => true) "" 0).1 = ({} : UserState) :=
  ⟨by decide, (exercise_session_stopped_frame {} (fun _ => true) "" 0 (by decide)).1⟩

end Kegelpy

namespace Kegelpy

/-- State of the TUI workout driver `WorkoutScreen` while inside
`countdown` (kegel_tui.py lines 215-243): the ordered list of timed
phase durations of the session, the index of the phase currently
counting down, its remaining seconds, and the orthogonal
`is_paused` flag toggled by `action_pause_resume` (lines 151-153). -/
structure WorkoutState where
  phases : List ℚ
  idx : ℕ
  remaining : ℚ
  is_paused : Bool
deriving DecidableEq

/-- One iteration of the TUI countdown loop (kegel_tui.py lines
222-239): while the phase has time left, a paused tick changes nothing
and an unpaused tick consumes 0.1 s; when the phase is exhausted,
`countdown` returns and `run_workout` enters the next phase with its
full duration. -/
def countdown_tick (w : WorkoutState) : WorkoutState :=
  if 0 < w.remaining then
    if w.is_paused then w
    else { w with remaining := w.remaining - 1/10 }
  else
    match w.phases.get? (w.idx + 1) with
    | some d => { w with idx := w.idx + 1, remaining := d }
    | none => w

/-- `WorkoutScreen.action_pause_resume` (kegel_tui.py lines 151-153):
toggles the orthogonal pause flag, touching nothing else. -/
def action_pause_resume (w : WorkoutState) : WorkoutState :=
  { w with is_paused := !w.is_paused }

/-- The remaining time displayed by the curses `App.run_timer`
(kegel.py lines 494-497): it is recomputed from the wall clock as
`duration - (now - start_time)` (never below zero) on every iteration,
including the first one after `App.pause_screen` returns — the wall
clock keeps advancing while the blocking pause loop runs. -/
def run_timer_remaining (start_time duration now : ℚ) : ℚ :=
  max 0 (duration - (now - start_time))

/-- C6 (amended): in the TUI front-end, a tick taken while the pause
flag is set leaves the phase's remaining time and the phase index
unchanged, and the tick right after resuming consumes time starting
from exactly the remaining value held when pause was entered — the
phase is not restarted.  (In the curses front-end, by contrast,
`run_timer` derives the remaining time from the wall clock, so phase
time is consumed during a pause; see the counterexample.) -/
theorem countdown_tick_paused_frame (w : WorkoutState)
    (hp : w.is_paused = true) (hr : 0 < w.remaining) :
    countdown_tick w = w ∧
    countdown_tick (action_pause_resume w) =
      { w with is_paused := !w.is_paused, remaining := w.remaining - 1/10 } := by
  constructor
  · unfold countdown_tick
    rw [if_pos hr, if_pos hp]
  · unfold countdown_tick action_pause_resume
    simp only [hp, Bool.not_true]
    rw [if_pos hr]
    simp

/-- Witness for C6's amended theorem: a paused phase with 5 s left and
one more phase queued. -/
theorem countdown_tick_paused_frame_witness :
    countdown_tick ⟨[5, 3], 0, 5, true⟩ = ⟨[5, 3], 0, 5, true⟩ ∧
    countdown_tick (action_pause_resume ⟨[5, 3], 0, 5, true⟩) =
      ⟨[5, 3], 0, 5 - 1/10, false⟩ :=
  countdown_tick_paused_frame ⟨[5, 3], 0, 5, true⟩ rfl (by norm_num)

/-- C6 counterexample: in the curses front-end, the phase does not
resume from the remaining time it had when pause was entered.  With a
10 s phase started at t = 0, pause is entered at t = 2 with 8 s
remaining; the blocking pause screen returns at t = 5, and the next
iteration computes 5 s remaining — 3 s of phase time were consumed
while paused. -/
theorem run_timer_consumes_time_during_pause :
    run_timer_remaining 0 10 2 = 8 ∧
    run_timer_remaining 0 10 5 = 5 ∧
    run_timer_remaining 0 10 5 ≠ run_timer_remaining 0 10 2 := by
  refine ⟨?_, ?_, ?_⟩ <;> simp [run_timer_remaining] <;> norm_num

end Kegelpy

namespace Kegelpy

/-- One entry of the `last_14_days` series produced by
`StatisticsCalculator.calculate_stats` (core.py lines 311-313). -/
structure DayEntry where
  date : String
  duration_minutes : ℚ
deriving DecidableEq

/-- The dictionary returned by
`StatisticsCalculator.calculate_stats` (core.py lines 272-339). -/
structure Stats where
  total_duration_minutes : ℚ
  workout_days : ℕ
  last_14_days : List DayEntry
  level_stats : List (ℕ × ℚ)
  total_workouts : ℕ
  avg_duration_minutes : ℚ
deriving DecidableEq

/-- `record.date.split("T")[0]` (core.py lines 294, 307): the calendar
date part of an ISO timestamp — everything before the first `T` (the
whole string when no `T` occurs, exactly as Python's split). -/
def dateOnly (s : String) : String :=
  String.mk (s.toList.takeWhile (fun c => c ≠ 'T'))

/-- `StatisticsCalculator.calculate_stats` (core.py lines 272-339).
`datetime.now().date()` and the `timedelta` arithmetic are environment
inputs: `last14Dates` is the list of the 14 ISO date strings
`[today-13, …, today]` the code builds on lines 298-302.  An empty
history takes the early return of lines 275-283 — whose `last_14_days`
is the empty list, not a 14-entry series.  Per-level statistics are the
mean session duration in minutes for each distinct level, in first-seen
order, matching the `defaultdict` accumulation of lines 315-328. -/
def calculate_stats (last14Dates : List String)
    (exercise_history : List ExerciseRecord) : Stats :=
  if exercise_history.isEmpty then
    { total_duration_minutes := 0
      workout_days := 0
      last_14_days := []
      level_stats := []
      total_workouts := 0
      avg_duration_minutes := 0 }
  else
    let total_duration_seconds := (exercise_history.map (·.duration_seconds)).sum
    let total_duration_minutes := total_duration_seconds / 60
    let workout_dates := (exercise_history.map (fun r => dateOnly r.date)).dedup
    let last_14_days := last14Dates.map (fun ds =>
      { date := ds
        duration_minutes :=
          ((exercise_history.filter (fun r => dateOnly r.date == ds)).map
            (·.duration_seconds)).sum / 60 : DayEntry })
    let levels := (exercise_history.map (·.level)).dedup
    let level_stats := levels.map (fun l =>
      let recs := exercise_history.filter (fun r => r.level == l)
      (l, ((recs.map (·.duration_seconds)).sum / 60) / (recs.length : ℚ)))
    { total_duration_minutes := total_duration_minutes
      workout_days := workout_dates.length
      last_14_days := last_14_days
      level_stats := level_stats
      total_workouts := exercise_history.length
      avg_duration_minutes := total_duration_minutes / (exercise_history.length : ℚ) }

/-- The 14 trailing dates used in the concrete statistics scenario. -/
def demoDates : List String :=
  ["2026-09-29", "2026-09-30", "2026-10-01", "2026-10-02", "2026-10-03",
   "2026-10-04", "2026-10-05", "2026-10-06", "2026-10-07", "2026-10-08",
   "2026-10-09", "2026-10-10", "2026-10-11", "2026-10-12"]

/-- C5 counterexample: on an empty history the early return yields an
empty `last_14_days` list — not the 14 zero-duration entries the claim
states — even when 14 trailing dates are available. -/
theorem calculate_stats_empty_not_fourteen :
    demoDates.length = 14 ∧
    (calculate_stats demoDates []).last_14_days = [] ∧
    (calculate_stats demoDates []).last_14_days.length ≠ 14 := by
  refine ⟨rfl, rfl, by decide⟩

/-- C5 (amended): on an empty exercise history `calculate_stats`
returns zero total duration, zero workout days, zero workouts, zero
average duration, an empty level-statistics map and an *empty*
last-14-days series, without failing, whatever the trailing dates
are. -/
theorem calculate_stats_empty (last14Dates : List String) :
    calculate_stats last14Dates [] =
      { total_duration_minutes := 0, workout_days := 0, last_14_days := [],
        level_stats := [], total_workouts := 0, avg_duration_minutes := 0 } :=
  rfl

end Kegelpy

namespace Kegelpy

/-- JSON values as returned by a successful `json.load` (core.py line
217). -/
inductive JValue where
  | jnull
  | jbool (b : Bool)
  | jnum (q : ℚ)
  | jstr (s : String)
  | jarr (elems : List JValue)
  | jobj (fields : List (String × JValue))

/-- Contents of the backing progress file: missing, not valid JSON
(`json.load` raises `JSONDecodeError`), or a parsed JSON value.  JSON
objects read back by `json.load` have unique keys, and numbers are
modelled exactly as `ℚ`. -/
inductive FileContent where
  | absent
  | malformed
  | json (v : JValue)

/-- Result of `StateManager.load`: either a `UserState`, or a Python
exception escaping the `try`/`except` block (named by its class). -/
inductive LoadResult where
  | ok (state : UserState)
  | raised (exc : String)
deriving DecidableEq

/-- Reading a JSON number back as the non-negative integer a Python
`int` round-trips to; any other number is not a value this model's
typed fields can hold (core.py dataclasses do not check types, so a
state file written by `save` always satisfies this). -/
def jnumToNat (q : ℚ) : Option ℕ :=
  if q.den = 1 ∧ 0 ≤ q.num then some q.num.toNat else none

/-- The `pulse_reps` entry of a history record: a JSON list of
integers. -/
def parseNatList : List JValue → Option (List ℕ)
  | [] => some []
  | JValue.jnum q :: rest =>
    match jnumToNat q, parseNatList rest with
    | some n, some ns => some (n :: ns)
    | _, _ => none
  | _ :: _ => none

/-- The `asdict` serialization of one `ExerciseRecord`
(core.py line 238): field order is the dataclass declaration order,
which is also the key order `json.dump` writes. -/
def recordFields (r : ExerciseRecord) : List (String × JValue) :=
  [("date", JValue.jstr r.date),
   ("level", JValue.jnum (r.level : ℚ)),
   ("day", JValue.jnum (r.day : ℚ)),
   ("duration_seconds", JValue.jnum r.duration_seconds),
   ("classic_reps", JValue.jnum (r.classic_reps : ℚ)),
   ("pulse_reps", JValue.jarr (r.pulse_reps.map (fun (n : ℕ) => JValue.jnum (n : ℚ))))]

/-- One history record as a JSON object. -/
def recordToJson (r : ExerciseRecord) : JValue :=
  JValue.jobj (recordFields r)

/-- `ExerciseRecord(**record)` (core.py line 228): succeeds exactly on a
dict with the six record fields (in the order `save` writes them, the
only order this model needs); any other key set raises `TypeError`,
and a field of a JSON type the typed model cannot hold is likewise
modelled as the caught deserialization failure. -/
def parseRecord : List (String × JValue) → Option ExerciseRecord
  | [("date", JValue.jstr date), ("level", JValue.jnum lvl),
     ("day", JValue.jnum day), ("duration_seconds", JValue.jnum dur),
     ("classic_reps", JValue.jnum reps), ("pulse_reps", JValue.jarr pr)] =>
    match jnumToNat lvl, jnumToNat day, jnumToNat reps, parseNatList pr with
    | some l, some d, some c, some ps =>
      some { date := date, level := l, day := d, duration_seconds := dur,
             classic_reps := c, pulse_reps := ps }
    | _, _, _, _ => none
  | _ => none

/-- The history-conversion loop (core.py lines 223-229): entries that
are not dicts fail the `isinstance` check and are skipped; a dict entry
becomes an `ExerciseRecord`, and a bad dict raises `TypeError`, which
aborts the whole load (propagated here as `none`). -/
def parseHistory : List JValue → Option (List ExerciseRecord)
  | [] => some []
  | JValue.jobj fs :: rest =>
    match parseRecord fs, parseHistory rest with
    | some r, some rs => some (r :: rs)
    | _, _ => none
  | _ :: rest => parseHistory rest

/-- What `for record in history_data` iterates over (core.py line 225):
a list yields its elements, a dict yields its keys, a string yields its
one-character substrings; a number, boolean or null is not iterable and
raises `TypeError` (modelled as `none`). -/
def recordsOf : JValue → Option (List JValue)
  | JValue.jarr elems => some elems
  | JValue.jobj fields => some (fields.map (fun kv => JValue.jstr kv.1))
  | JValue.jstr s => some (s.toList.map (fun c => JValue.jstr (String.singleton c)))
  | _ => none

/-- `UserState(**data)` (core.py line 231) applied to the object after
its `exercise_history` entry has been replaced by the converted list:
succeeds on the four dataclass fields in the order `save` writes them
(the only order this model needs); any other key set raises
`TypeError`, modelled as `none`. -/
def parseState : List (String × JValue) → List ExerciseRecord → Option UserState
  | [("current_level", JValue.jnum lvl), ("current_day", JValue.jnum day),
     ("last_performed", JValue.jstr lp), ("exercise_history", _)], hist =>
    match jnumToNat lvl, jnumToNat day with
    | some l, some d =>
      some { current_level := l, current_day := d, last_performed := lp,
             exercise_history := hist }
    | _, _ => none
  | _, _ => none

/-- Python substring containment (`pat in s` on strings), over the
character lists: `pat` occurs starting at some position. -/
def listIsInfix (pat : List Char) : List Char → Bool
  | [] => pat.isEmpty
  | c :: rest => pat.isPrefixOf (c :: rest) || listIsInfix pat rest

/-- The body of `StateManager.load` after a successful `json.load`
(core.py lines 218-231), with the surrounding
`except (json.JSONDecodeError, TypeError, KeyError)` handler
(lines 232-234) folded in: every modelled `TypeError` falls back to the
default `UserState()`.  The membership test `"exercise_history" not in
data` is Python `in`: key lookup on a dict, element equality on a list,
substring containment on a string, and a `TypeError` (caught) on any
other type.  On a list or string that *does* contain
`"exercise_history"`, execution reaches `data.get(...)` and raises
`AttributeError` — which the handler does not catch. -/
def loadJson : JValue → LoadResult
  | JValue.jobj fields =>
    if fields.any (fun kv => kv.1 == "exercise_history") then
      match recordsOf ((fields.lookup "exercise_history").getD JValue.jnull) with
      | none => LoadResult.ok {}
      | some elems =>
        match parseHistory elems with
        | none => LoadResult.ok {}
        | some hist =>
          match parseState fields hist with
          | none => LoadResult.ok {}
          | some st => LoadResult.ok st
    else
      match parseState (fields ++ [("exercise_history", JValue.jarr [])]) [] with
      | none => LoadResult.ok {}
      | some st => LoadResult.ok st
  | JValue.jarr elems =>
    if elems.any (fun v => match v with
        | JValue.jstr t => t == "exercise_history"
        | _ => false) then
      LoadResult.raised "AttributeError"
    else
      LoadResult.ok {}
  | JValue.jstr s =>
    if listIsInfix "exercise_history".toList s.toList then
      LoadResult.raised "AttributeError"
    else
      LoadResult.ok {}
  | _ => LoadResult.ok {}

/-- `StateManager.load` (core.py lines 212-234): a missing file and a
`json.load` failure both produce the default `UserState()`. -/
def load (file : FileContent) : LoadResult :=
  match file with
  | FileContent.absent => LoadResult.ok {}
  | FileContent.malformed => LoadResult.ok {}
  | FileContent.json v => loadJson v

/-- `asdict(state)` as serialized by `StateManager.save`
(core.py lines 236-240). -/
def stateToJson (state : UserState) : JValue :=
  JValue.jobj
    [("current_level", JValue.jnum (state.current_level : ℚ)),
     ("current_day", JValue.jnum (state.current_day : ℚ)),
     ("last_performed", JValue.jstr state.last_performed),
     ("exercise_history", JValue.jarr (state.exercise_history.map recordToJson))]

/-- `StateManager.save` (core.py lines 236-240): the file afterwards
holds the JSON serialization of the state. -/
def save (state : UserState) : FileContent :=
  FileContent.json (stateToJson state)

end Kegelpy

namespace Kegelpy

/-- A serialized `ℕ` reads back as itself. -/
theorem jnumToNat_natCast (n : ℕ) : jnumToNat (n : ℚ) = some n := by
  unfold jnumToNat
  rw [if_pos ⟨Rat.den_natCast n, by rw [Rat.num_natCast]; exact Int.natCast_nonneg n⟩]
  rw [Rat.num_natCast, Int.toNat_natCast]

/-- A serialized list of `ℕ` reads back as itself. -/
theorem parseNatList_roundtrip (l : List ℕ) :
    parseNatList (l.map (fun (n : ℕ) => JValue.jnum (n : ℚ))) = some l := by
  induction l with
  | nil => rfl
  | cons n ns ih =>
    simp only [List.map_cons, parseNatList, jnumToNat_natCast, ih]

/-- A serialized `ExerciseRecord` reads back as itself. -/
theorem parseRecord_roundtrip (r : ExerciseRecord) :
    parseRecord (recordFields r) = some r := by
  simp only [recordFields, parseRecord, jnumToNat_natCast, parseNatList_roundtrip]

/-- A serialized history reads back as itself. -/
theorem parseHistory_roundtrip (l : List ExerciseRecord) :
    parseHistory (l.map recordToJson) = some l := by
  induction l with
  | nil => rfl
  | cons r rs ih =>
    simp only [List.map_cons, recordToJson, parseHistory, parseRecord_roundtrip r, ih]

/-- C8: saving any `UserState` — including one with a non-empty
history — and loading it back yields the original state, field for
field, every history entry reconstructed as an equal
`ExerciseRecord`. -/
theorem save_load_roundtrip (state : UserState) :
    load (save state) = LoadResult.ok state := by
  show loadJson (stateToJson state) = LoadResult.ok state
  have h := parseHistory_roundtrip state.exercise_history
  simp [stateToJson, loadJson, List.lookup, recordsOf, h, parseState,
    jnumToNat_natCast]

/-- C7: the backing-file contents `["exercise_history"]` (a JSON list
containing that string) drive `StateManager.load` into
`data.get(...)` on a list, raising an `AttributeError` that the
`except (JSONDecodeError, TypeError, KeyError)` handler does not catch;
an absent file and undecodable contents do return the default
state. -/
theorem load_uncaught_attribute_error :
    load (FileContent.json (JValue.jarr [JValue.jstr "exercise_history"])) =
      LoadResult.raised "AttributeError" ∧
    load FileContent.absent = LoadResult.ok {} ∧
    load FileContent.malformed = LoadResult.ok {} := by
  refine ⟨?_, rfl, rfl⟩
  rfl

end Kegelpy
